import Mathlib

/-!
Shallow embedding of `src/app.py` (Nutrition-Counter): a Streamlit script that
chains OpenRouter chat-completion calls (food detection from an image, nutrition
estimation from text) and an AssemblyAI transcription flow (upload, submit,
poll).  External HTTP responses are modelled as explicit inputs; UI display
calls (`st.error`, `st.write`) are modelled as returned data.  Python strings
are Lean Strings; Python truthiness of a string is non-emptiness.
-/

namespace NutritionCounter

/-- Model identifier for the vision call, `src/app.py` line 12. -/
def GEMINI_MODEL : String := "google/gemini-pro-vision"

/-- Model identifier for the text call, `src/app.py` line 13. -/
def GPT_MODEL : String := "openai/gpt-3.5-turbo"

/-- The fixed food-detection template, `src/app.py` lines 16-28 (triple-quoted,
so it begins and ends with a newline). -/
def FOOD_DETECTION_PROMPT : String :=
  "\nDari gambar ini, identifikasikan semua makanan yang terlihat.\n\nInstruksi:\n- Sebutkan nama makanan dan jumlahnya secara terpisah.\n- Tulis dalam format daftar bullet seperti:\n  - 2 kerupuk\n  - 1 ayam goreng\n  - 1 piring nasi goreng\n  - 3 potong timun\n- Jika jumlah tidak pasti, berikan estimasi wajar berdasarkan gambar.\n- Tidak perlu deskripsi tambahan, hanya daftar saja.\n"

/-- The fixed nutrition-calculation template, `src/app.py` lines 30-46, with its
single replacement field `{text}`. -/
def NUTRITION_CALCULATION_PROMPT : String :=
  "\nBerikut ini adalah daftar makanan beserta jumlahnya:\n\n{text}\n\nTugasmu:\n- Tentukan nilai nutrisi standar untuk **satu** unit makanan (kalori, protein, lemak, karbohidrat).\n- Kalikan nilai nutrisi tersebut dengan jumlah makanan yang disebutkan.\n- Tampilkan hasil kalkulasi **per item** dan **total keseluruhan** di bagian bawah.\n- Format hasil dalam bentuk tabel dengan kolom berikut:\n  - Nama Makanan\n  - Jumlah\n  - Kalori\n  - Protein (g)\n  - Lemak (g)\n  - Karbohidrat (g)\n"

/-- The part of `NUTRITION_CALCULATION_PROMPT` before the `{text}` field. -/
def nutritionTemplatePre : String :=
  "\nBerikut ini adalah daftar makanan beserta jumlahnya:\n\n"

/-- The part of `NUTRITION_CALCULATION_PROMPT` after the `{text}` field. -/
def nutritionTemplatePost : String :=
  "\n\nTugasmu:\n- Tentukan nilai nutrisi standar untuk **satu** unit makanan (kalori, protein, lemak, karbohidrat).\n- Kalikan nilai nutrisi tersebut dengan jumlah makanan yang disebutkan.\n- Tampilkan hasil kalkulasi **per item** dan **total keseluruhan** di bagian bawah.\n- Format hasil dalam bentuk tabel dengan kolom berikut:\n  - Nama Makanan\n  - Jumlah\n  - Kalori\n  - Protein (g)\n  - Lemak (g)\n  - Karbohidrat (g)\n"

/-- Python `str.format` applied to `NUTRITION_CALCULATION_PROMPT` with keyword
`text` (line 90): the template's sole `{text}` field is replaced by the
argument, which is inserted verbatim (replacement values are never re-scanned
by `format`). -/
def pyFormatNutrition (t : String) : String :=
  nutritionTemplatePre ++ t ++ nutritionTemplatePost

/-- Characters removed by Python `str.strip()` with no argument (ASCII
whitespace; the source inputs come from a text widget). -/
def isPySpace (c : Char) : Bool :=
  c == ' ' || c == '\t' || c == '\n' || c == '\x0d' || c == '\x0b' || c == '\x0c'

/-- Python `s.strip()`: remove leading and trailing whitespace. -/
def pyStrip (s : String) : String :=
  String.mk (((s.toList.dropWhile isPySpace).reverse.dropWhile isPySpace).reverse)

/-- Python truthiness of a string: `bool(s)` is `True` iff `s` is non-empty. -/
def pyTruthy (s : String) : Bool :=
  s != ""

/-- The base64 alphabet. -/
def b64Alphabet : List Char :=
  "ABCDEFGHIJKLMNOPQRSTUVWXYZabcdefghijklmnopqrstuvwxyz0123456789+/".toList

/-- The base64 digit for a 6-bit value. -/
def b64Char (n : Nat) : Char :=
  b64Alphabet.getD n '='

/-- Standard base64 of a byte list, modelling `base64.b64encode` (line 53). -/
def b64encode : List Nat → String
  | [] => ""
  | [a] =>
    let a := a % 256
    String.mk [b64Char (a / 4), b64Char ((a % 4) * 16), '=', '=']
  | [a, b] =>
    let a := a % 256
    let b := b % 256
    String.mk [b64Char (a / 4), b64Char ((a % 4) * 16 + b / 16), b64Char ((b % 16) * 4), '=']
  | a :: b :: c :: rest =>
    let a := a % 256
    let b := b % 256
    let c := c % 256
    String.mk [b64Char (a / 4), b64Char ((a % 4) * 16 + b / 16),
               b64Char ((b % 16) * 4 + c / 64), b64Char (c % 64)] ++ b64encode rest

/-- PIL image modes relevant to the uploads the app accepts (jpg/jpeg/png). -/
inductive ImageMode
  | L
  | P
  | RGB
  | RGBA
  deriving DecidableEq, Repr

/-- Printable name of a PIL mode, as it appears in PIL error messages. -/
def modeName : ImageMode → String
  | ImageMode.L => "L"
  | ImageMode.P => "P"
  | ImageMode.RGB => "RGB"
  | ImageMode.RGBA => "RGBA"

/-- Models the PIL JPEG encoder's mode support: `Image.save(buf, format="JPEG")`
succeeds for modes L/RGB and raises `OSError("cannot write mode M as JPEG")`
for modes with a palette or an alpha channel (P, RGBA). -/
def jpegWritable : ImageMode → Bool
  | ImageMode.L => true
  | ImageMode.RGB => true
  | ImageMode.P => false
  | ImageMode.RGBA => false

/-- A PIL image as `Image.open` yields it: a mode, pixel data (abstracted to a
byte list), and the format of the uploaded file (e.g. "PNG"). -/
structure PilImage where
  mode : ImageMode
  pixels : List Nat
  sourceFormat : String
  deriving DecidableEq, Repr

/-- `image.save(buffered, format="JPEG")` (line 52): the format argument is the
constant "JPEG" whatever `sourceFormat` was; unsupported modes raise.  The
encoded payload is abstracted to the pixel bytes (its exact content is not
relevant to any property here, only success vs raise). -/
def pilSaveJpeg (img : PilImage) : Except String (List Nat) :=
  if jpegWritable img.mode then Except.ok img.pixels
  else Except.error ("cannot write mode " ++ modeName img.mode ++ " as JPEG")

/-- `encode_image_to_base64` (lines 50-53): save as JPEG into a buffer, then
base64-encode.  A raise from `save` propagates (no try/except in the source). -/
def encode_image_to_base64 (img : PilImage) : Except String String :=
  match pilSaveJpeg img with
  | Except.error e => Except.error e
  | Except.ok bytes => Except.ok (b64encode bytes)

/-- An HTTP response from the OpenRouter chat endpoint: status code, the
response body text, and (when the body is the success JSON) the string at
`choices[0].message.content`. -/
structure ChatHttpResp where
  statusCode : Nat
  content : String
  text : String
  deriving DecidableEq, Repr

/-- What a call to `openrouter_chat` produces: the Python return value
(`None` modelled as `none`) and the message shown via `st.error`, if any. -/
structure ChatCallResult where
  returned : Option String
  displayed : Option String
  deriving DecidableEq, Repr

/-- `openrouter_chat` (lines 55-71): on status 200 return
`result["choices"][0]["message"]["content"]`; otherwise display
`f"Error OpenRouter: {status_code} - {text}"` and return `None`. -/
def openrouter_chat (resp : ChatHttpResp) : ChatCallResult :=
  if resp.statusCode = 200 then
    { returned := some resp.content, displayed := none }
  else
    { returned := none,
      displayed := some ("Error OpenRouter: " ++ toString resp.statusCode ++ " - " ++ resp.text) }

/-- An outbound chat request: target model, the textual prompt part, and the
inline image data URI when present. -/
structure ChatRequest where
  model : String
  promptText : String
  imageUrl : Option String
  deriving DecidableEq, Repr

/-- The body of `detect_food_from_image` after a successful encode
(lines 75-84): the list of outbound requests it issues (exactly the one chat
request) paired with the call's result for the given response. -/
def detectFoodTrace (b64 : String) (resp : ChatHttpResp) :
    List ChatRequest × ChatCallResult :=
  ([{ model := GEMINI_MODEL,
      promptText := FOOD_DETECTION_PROMPT,
      imageUrl := some ("data:image/jpeg;base64," ++ b64) }],
   openrouter_chat resp)

/-- `detect_food_from_image` (lines 73-84): encode the image (a raise
propagates, issuing no request), then issue the single chat request. -/
def detect_food_from_image (img : PilImage) (resp : ChatHttpResp) :
    Except String (List ChatRequest × ChatCallResult) :=
  match encode_image_to_base64 img with
  | Except.error e => Except.error e
  | Except.ok b64 => Except.ok (detectFoodTrace b64 resp)

/-- `calculate_nutrition` (lines 86-93): the list of outbound requests (the one
chat request to `GPT_MODEL`, its content the formatted template) paired with
the call's result for the given response. -/
def calculate_nutrition (foodListText : String) (resp : ChatHttpResp) :
    List ChatRequest × ChatCallResult :=
  ([{ model := GPT_MODEL,
      promptText := pyFormatNutrition foodListText,
      imageUrl := none }],
   openrouter_chat resp)

/-- One parsed polling response body as the source indexes it (lines 127-132):
`status`, and the `text` / `error` fields read on the terminal branches.  This
layer assumes well-formed JSON; `pollStepRaw` below models the raw layer. -/
structure PollJson where
  status : String
  text : String
  error : String
  deriving DecidableEq, Repr

/-- What `transcribe_audio` hands back to its caller: the returned string and
the message shown via `st.error`, if any. -/
structure TranscribeReturn where
  value : String
  displayed : Option String
  deriving DecidableEq, Repr

/-- Seconds slept between polls: `time.sleep(3)` at line 135. -/
def sleepSeconds : Nat := 3

/-- The polling loop (lines 125-135) run against a finite script of parsed
poll responses.  Returns the outcome (`none` when the script is exhausted with
the loop still going, i.e. the next poll would block), the number of polls
issued, and the number of sleeps taken.  Each sleep immediately precedes the
next poll, so the count of delayed polls equals the sleep count whenever the
loop returns. -/
def pollTranscript : List PollJson → Option TranscribeReturn × Nat × Nat
  | [] => (none, 0, 0)
  | r :: rest =>
    if r.status = "completed" then
      (some { value := r.text, displayed := none }, 1, 0)
    else if r.status = "error" then
      (some { value := "Transkripsi gagal!",
              displayed := some ("Transkripsi gagal: " ++ r.error) }, 1, 0)
    else
      let q := pollTranscript rest
      (q.1, q.2.1 + 1, q.2.2 + 1)

/-- The same polling loop against an infinite stream of parsed responses,
bounded by fuel: `pollTranscriptFuel stream fuel k` runs at most `fuel`
iterations starting from the `k`-th poll, `none` meaning the loop is still
running when the fuel runs out. -/
def pollTranscriptFuel (stream : Nat → PollJson) : Nat → Nat → Option TranscribeReturn
  | 0, _ => none
  | fuel + 1, k =>
    let r := stream k
    if r.status = "completed" then
      some { value := r.text, displayed := none }
    else if r.status = "error" then
      some { value := "Transkripsi gagal!",
             displayed := some ("Transkripsi gagal: " ++ r.error) }
    else
      pollTranscriptFuel stream fuel (k + 1)

/-- Response of the AssemblyAI upload endpoint (line 103): status code, body
text, and the `upload_url` JSON field. -/
structure UploadResp where
  statusCode : Nat
  text : String
  upload_url : String
  deriving DecidableEq, Repr

/-- Response of the AssemblyAI transcript-submission endpoint (line 116):
status code, body text, and the `id` JSON field. -/
structure SubmitResp where
  statusCode : Nat
  text : String
  id : String
  deriving DecidableEq, Repr

/-- The remote behaviour one run of `transcribe_audio` observes: the upload
response, the submission response, and the script of poll responses. -/
structure TranscribeEnv where
  upload : UploadResp
  submit : SubmitResp
  polls : List PollJson
  deriving DecidableEq, Repr

/-- `transcribe_audio` (lines 95-135): upload (non-200 displays
`f"Upload gagal: {text}"` and returns `"Upload gagal!"`), submit (non-200
displays `f"Request transkrip gagal: {text}"` and returns
`"Request transkrip gagal!"`), then the polling loop.  Components as in
`pollTranscript`; the early returns issue no polls and no sleeps. -/
def transcribe_audio (env : TranscribeEnv) : Option TranscribeReturn × Nat × Nat :=
  if env.upload.statusCode ≠ 200 then
    (some { value := "Upload gagal!",
            displayed := some ("Upload gagal: " ++ env.upload.text) }, 0, 0)
  else if env.submit.statusCode ≠ 200 then
    (some { value := "Request transkrip gagal!",
            displayed := some ("Request transkrip gagal: " ++ env.submit.text) }, 0, 0)
  else
    pollTranscript env.polls

/-- A raw polling response body as JSON: `none` when the body does not parse as
JSON, otherwise a record of the fields the source indexes, each possibly
absent. -/
structure PollBody where
  status : Option String
  text : Option String
  error : Option String
  deriving DecidableEq, Repr

/-- A raw HTTP response to one poll request: status code and raw body. -/
structure PollHttpResp where
  statusCode : Nat
  body : Option PollBody
  deriving DecidableEq, Repr

/-- Outcome of one iteration of the polling loop at the raw level: return from
`transcribe_audio`, sleep and poll again, or an uncaught Python exception. -/
inductive PollStepOutcome
  | ret (r : TranscribeReturn)
  | sleepThenRepoll
  | raise (exn : String)
  deriving DecidableEq, Repr

/-- One iteration of the polling loop on a raw response (lines 126-135):
`poll_response.json()` raises on a non-JSON body, `result['status']` raises
`KeyError` when absent, likewise `result['text']` / `result['error']` on the
terminal branches; the HTTP status code is never consulted. -/
def pollStepRaw (resp : PollHttpResp) : PollStepOutcome :=
  match resp.body with
  | none => PollStepOutcome.raise "JSONDecodeError"
  | some b =>
    match b.status with
    | none => PollStepOutcome.raise "KeyError: status"
    | some s =>
      if s = "completed" then
        match b.text with
        | none => PollStepOutcome.raise "KeyError: text"
        | some t => PollStepOutcome.ret { value := t, displayed := none }
      else if s = "error" then
        match b.error with
        | none => PollStepOutcome.raise "KeyError: error"
        | some e =>
          PollStepOutcome.ret { value := "Transkripsi gagal!",
                                displayed := some ("Transkripsi gagal: " ++ e) }
      else
        PollStepOutcome.sleepThenRepoll

/-- Result of the text tab's button handler (lines 169-177): either the
validation warning (no network call) or a nutrition-estimation invocation on
the given input. -/
inductive Tab2Result
  | warning (msg : String)
  | estimate (input : String)
  deriving DecidableEq, Repr

/-- The text-tab flow (lines 169-174): empty-after-strip input is rejected with
a warning, otherwise `calculate_nutrition` is invoked on the raw input. -/
def tab2_flow (manualText : String) : Tab2Result :=
  if pyStrip manualText = "" then
    Tab2Result.warning "⚠️ Masukkan daftar makanan terlebih dahulu."
  else
    Tab2Result.estimate manualText

/-- Number of outbound network calls the text-tab flow issues. -/
def tab2NetworkCalls (manualText : String) : Nat :=
  match tab2_flow manualText with
  | Tab2Result.warning _ => 0
  | Tab2Result.estimate _ => 1

/-- Inputs the image-tab flow (lines 150-160) passes to `calculate_nutrition`,
given what `detect_food_from_image` returned (`none` models Python `None`):
the guard is `if detected_food:`, Python truthiness. -/
def tab1EstimationCalls (detectedFood : Option String) : List String :=
  match detectedFood with
  | none => []
  | some t => if pyTruthy t then [t] else []

/-- Inputs the audio-tab flow (lines 182-193) passes to `calculate_nutrition`:
the guard is `if transcribed_text:`, Python truthiness of the string
`transcribe_audio` returned (`none` means the loop never returned). -/
def tab3EstimationCalls (env : TranscribeEnv) : List String :=
  match (transcribe_audio env).1 with
  | none => []
  | some r => if pyTruthy r.value then [r.value] else []

end NutritionCounter

namespace NutritionCounter

/-- C1: the claim says status `failed` is terminal like `error`; in the source
(lines 129-135) only `completed` and `error` are terminal, so on a script whose
first status is `failed` the loop does not return at that poll, and on
`[failed, error]` a second poll is issued after observing `failed`. -/
theorem C1_counterexample :
    (pollTranscript [{ status := "failed", text := "", error := "" }]).1 = none ∧
    (pollTranscript [{ status := "failed", text := "", error := "" },
                     { status := "error", text := "", error := "server fell over" }]).2.1 = 2 :=
  ⟨rfl, rfl⟩

/-- C1 (amended): upon observing status `error` the loop returns the failure
string immediately — one poll, no sleep, independent of the rest of the script
(so no further polls) — while status `failed` is not terminal: the loop defers
to the remaining script. -/
theorem C1_amended (t e : String) (rest rest' : List PollJson) :
    pollTranscript ({ status := "error", text := t, error := e } :: rest) =
      (some { value := "Transkripsi gagal!",
              displayed := some ("Transkripsi gagal: " ++ e) }, 1, 0) ∧
    (pollTranscript ({ status := "failed", text := t, error := e } :: rest')).1 =
      (pollTranscript rest').1 :=
  ⟨rfl, rfl⟩

/-- C2: evaluating the audio-tab flow where the upload endpoint answers 400:
`transcribe_audio` returns the truthy string "Upload gagal!", the guard
`if transcribed_text:` passes, and `calculate_nutrition` IS invoked on that
error string — the flow does not abort.  (The image tab does abort: a `None`
extraction result triggers no estimation call.) -/
theorem C2_code_bug_eval :
    tab3EstimationCalls { upload := { statusCode := 400, text := "boom", upload_url := "" },
                          submit := { statusCode := 200, text := "", id := "tid" },
                          polls := [] } = ["Upload gagal!"] ∧
    tab1EstimationCalls none = [] :=
  ⟨rfl, rfl⟩

/-- C3: a text input that strips to empty is rejected with the warning and
issues no network call; an input with non-whitespace content reaches the
estimation call, which is invoked on the raw input. -/
theorem C3_blank_text_rejected (t u : String)
    (hb : pyStrip t = "") (hn : pyStrip u ≠ "") :
    (tab2_flow t = Tab2Result.warning "⚠️ Masukkan daftar makanan terlebih dahulu." ∧
      tab2NetworkCalls t = 0) ∧
    (tab2_flow u = Tab2Result.estimate u ∧ tab2NetworkCalls u = 1) := by
  refine ⟨⟨?_, ?_⟩, ?_, ?_⟩ <;> simp [tab2_flow, tab2NetworkCalls, hb, hn]

/-- Witness for C3 on concrete inputs: whitespace-only "  \n\t " is rejected
without a call, "2 telur, 1 nasi goreng" is estimated. -/
theorem C3_blank_text_rejected_witness :
    (tab2_flow "  \n\t " = Tab2Result.warning "⚠️ Masukkan daftar makanan terlebih dahulu." ∧
      tab2NetworkCalls "  \n\t " = 0) ∧
    (tab2_flow "2 telur, 1 nasi goreng" = Tab2Result.estimate "2 telur, 1 nasi goreng" ∧
      tab2NetworkCalls "2 telur, 1 nasi goreng" = 1) :=
  C3_blank_text_rejected _ _ (by decide) (by decide)

set_option maxRecDepth 8000 in
/-- C4: the nutrition template splits around its single `{text}` field, the one
request `calculate_nutrition` issues carries the formatted template as its
content, and for any (non-empty) input the formatted content contains the
input verbatim as a contiguous substring. -/
theorem C4_verbatim_interpolation (t : String) (resp : ChatHttpResp) (h : t ≠ "") :
    NUTRITION_CALCULATION_PROMPT = nutritionTemplatePre ++ "{text}" ++ nutritionTemplatePost ∧
    (calculate_nutrition t resp).1 =
      [{ model := GPT_MODEL, promptText := pyFormatNutrition t, imageUrl := none }] ∧
    ∃ a b, pyFormatNutrition t = a ++ t ++ b :=
  ⟨by decide, rfl, nutritionTemplatePre, nutritionTemplatePost, rfl⟩

/-- Witness for C4 at the concrete non-empty input "2 telur, 1 nasi goreng". -/
theorem C4_verbatim_interpolation_witness :
    NUTRITION_CALCULATION_PROMPT = nutritionTemplatePre ++ "{text}" ++ nutritionTemplatePost ∧
    (calculate_nutrition "2 telur, 1 nasi goreng"
        { statusCode := 200, content := "ok", text := "" }).1 =
      [{ model := GPT_MODEL, promptText := pyFormatNutrition "2 telur, 1 nasi goreng",
         imageUrl := none }] ∧
    ∃ a b, pyFormatNutrition "2 telur, 1 nasi goreng" = a ++ "2 telur, 1 nasi goreng" ++ b :=
  C4_verbatim_interpolation _ _ (by decide)

/-- C5: on the script [queued, processing, completed("nasi goreng")] the loop
returns "nasi goreng" after 3 polls and 2 sleeps; the first poll is immediate
and each sleep precedes the next poll, so exactly the 2 later polls are
delayed polls. -/
theorem C5_scripted_polling :
    pollTranscript [{ status := "queued", text := "", error := "" },
                    { status := "processing", text := "", error := "" },
                    { status := "completed", text := "nasi goreng", error := "" }] =
      (some { value := "nasi goreng", displayed := none }, 3, 2) :=
  rfl

/-- C6: the sleep between polls is the fixed 3 time units, and on any stream
whose statuses never reach `completed`, `failed` or `error` the loop never
returns, whatever the iteration budget — there is no cap and no timeout. -/
theorem C6_nonterminal_polls_forever (stream : Nat → PollJson)
    (h : ∀ n, (stream n).status ≠ "completed" ∧ (stream n).status ≠ "failed" ∧
      (stream n).status ≠ "error") :
    sleepSeconds = 3 ∧ ∀ fuel k, pollTranscriptFuel stream fuel k = none := by
  refine ⟨rfl, ?_⟩
  intro fuel
  induction fuel with
  | zero => intro k; rfl
  | succ n ih =>
    intro k
    show (if (stream k).status = "completed" then
            some { value := (stream k).text, displayed := none }
          else if (stream k).status = "error" then
            some { value := "Transkripsi gagal!",
                   displayed := some ("Transkripsi gagal: " ++ (stream k).error) }
          else pollTranscriptFuel stream n (k + 1)) = none
    rw [if_neg (h k).1, if_neg (h k).2.2]
    exact ih (k + 1)

/-- Witness for C6: the constant "processing" stream, run for 6 iterations
from the first poll, has still not returned. -/
theorem C6_nonterminal_polls_forever_witness :
    sleepSeconds = 3 ∧
    pollTranscriptFuel (fun _ => { status := "processing", text := "", error := "" }) 6 0 = none := by
  have H := C6_nonterminal_polls_forever
    (fun _ => { status := "processing", text := "", error := "" })
    (by
      intro n
      refine ⟨?_, ?_, ?_⟩
      · show ("processing" : String) ≠ "completed"
        decide
      · show ("processing" : String) ≠ "failed"
        decide
      · show ("processing" : String) ≠ "error"
        decide)
  exact ⟨H.1, H.2 6 0⟩

/-- C7 fails as stated, on two counts: on an HTTP 200 response whose content
is the empty string, the call returns that empty string — neither non-empty
text nor the error signal (`None`) — and on an accepted RGBA image the
extraction raises before issuing any request, so it does not issue exactly one
request and its result is neither arm of the dichotomy. -/
theorem C7_counterexample :
    ¬ ((∃ t, (openrouter_chat { statusCode := 200, content := "", text := "" }).returned =
          some t ∧ t ≠ "") ∨
       (openrouter_chat { statusCode := 200, content := "", text := "" }).returned = none) ∧
    detect_food_from_image { mode := ImageMode.RGBA, pixels := [], sourceFormat := "PNG" }
        { statusCode := 200, content := "ok", text := "" } =
      Except.error "cannot write mode RGBA as JPEG" := by
  refine ⟨?_, rfl⟩
  simp [openrouter_chat]

/-- C7 (amended): for every image whose mode the JPEG encoder can write,
`detect_food_from_image` issues exactly one outbound chat request and its
result is exclusively either the response content returned verbatim (possibly
empty) with nothing displayed (HTTP 200), or `None` with a displayed error
carrying the status code and body (any other status) — never both channels
empty and never both filled; for every image whose mode the JPEG encoder
cannot write, the extraction raises, issuing no request and returning
neither. -/
theorem C7_amended (img w : PilImage) (resp : ChatHttpResp)
    (hOk : jpegWritable img.mode = true) (hRaise : jpegWritable w.mode = false) :
    (∃ b64, detect_food_from_image img resp = Except.ok (detectFoodTrace b64 resp) ∧
      (detectFoodTrace b64 resp).1.length = 1 ∧
      (detectFoodTrace b64 resp).2 = openrouter_chat resp) ∧
    (∃ e, detect_food_from_image w resp = Except.error e) ∧
    (((openrouter_chat resp).returned = some resp.content ∧
        (openrouter_chat resp).displayed = none) ∨
      ((openrouter_chat resp).returned = none ∧
        (openrouter_chat resp).displayed =
          some ("Error OpenRouter: " ++ toString resp.statusCode ++ " - " ++ resp.text))) ∧
    ¬ ((openrouter_chat resp).returned = none ∧ (openrouter_chat resp).displayed = none) ∧
    ¬ ((openrouter_chat resp).returned.isSome ∧ (openrouter_chat resp).displayed.isSome) := by
  refine ⟨⟨b64encode img.pixels, ?_, rfl, rfl⟩, ?_, ?_, ?_, ?_⟩
  · simp [detect_food_from_image, encode_image_to_base64, pilSaveJpeg, hOk]
  · exact ⟨"cannot write mode " ++ modeName w.mode ++ " as JPEG",
      by simp [detect_food_from_image, encode_image_to_base64, pilSaveJpeg, hRaise]⟩
  · by_cases hc : resp.statusCode = 200
    · exact Or.inl (by simp [openrouter_chat, hc])
    · exact Or.inr (by simp [openrouter_chat, hc])
  · by_cases hc : resp.statusCode = 200 <;> simp [openrouter_chat, hc]
  · by_cases hc : resp.statusCode = 200 <;> simp [openrouter_chat, hc]

/-- Witness for C7 (amended) at a concrete RGB image (one request issued, the
200 response's content handed back) and a concrete RGBA image (raises). -/
theorem C7_amended_witness :
    (∃ b64, detect_food_from_image { mode := ImageMode.RGB, pixels := [7, 8, 9], sourceFormat := "JPEG" }
        { statusCode := 200, content := "- 2 telur", text := "" } =
        Except.ok (detectFoodTrace b64 { statusCode := 200, content := "- 2 telur", text := "" }) ∧
      (detectFoodTrace b64 { statusCode := 200, content := "- 2 telur", text := "" }).1.length = 1 ∧
      (detectFoodTrace b64 { statusCode := 200, content := "- 2 telur", text := "" }).2 =
        openrouter_chat { statusCode := 200, content := "- 2 telur", text := "" }) ∧
    (∃ e, detect_food_from_image { mode := ImageMode.RGBA, pixels := [7, 8, 9], sourceFormat := "PNG" }
        { statusCode := 200, content := "- 2 telur", text := "" } = Except.error e) ∧
    (((openrouter_chat { statusCode := 200, content := "- 2 telur", text := "" }).returned =
        some ({ statusCode := 200, content := "- 2 telur", text := "" } : ChatHttpResp).content ∧
      (openrouter_chat { statusCode := 200, content := "- 2 telur", text := "" }).displayed = none) ∨
      ((openrouter_chat { statusCode := 200, content := "- 2 telur", text := "" }).returned = none ∧
        (openrouter_chat { statusCode := 200, content := "- 2 telur", text := "" }).displayed =
          some ("Error OpenRouter: " ++ toString (200 : Nat) ++ " - " ++ ""))) ∧
    ¬ ((openrouter_chat { statusCode := 200, content := "- 2 telur", text := "" }).returned = none ∧
      (openrouter_chat { statusCode := 200, content := "- 2 telur", text := "" }).displayed = none) ∧
    ¬ ((openrouter_chat { statusCode := 200, content := "- 2 telur", text := "" }).returned.isSome ∧
      (openrouter_chat { statusCode := 200, content := "- 2 telur", text := "" }).displayed.isSome) :=
  C7_amended { mode := ImageMode.RGB, pixels := [7, 8, 9], sourceFormat := "JPEG" }
    { mode := ImageMode.RGBA, pixels := [7, 8, 9], sourceFormat := "PNG" }
    { statusCode := 200, content := "- 2 telur", text := "" } rfl rfl

/-- C8: each of the three failure paths of `transcribe_audio` returns a fixed
non-empty (hence Python-truthy) string through the same string channel a
successful transcript uses — never `None` and never a distinct error type. -/
theorem C8_failure_paths_truthy_strings (e1 e2 e3 : TranscribeEnv)
    (p : PollJson) (rest : List PollJson)
    (h1 : e1.upload.statusCode ≠ 200)
    (h2 : e2.upload.statusCode = 200 ∧ e2.submit.statusCode ≠ 200)
    (h3 : e3.upload.statusCode = 200 ∧ e3.submit.statusCode = 200 ∧
      e3.polls = p :: rest ∧ p.status = "error") :
    ((transcribe_audio e1).1 =
        some { value := "Upload gagal!",
               displayed := some ("Upload gagal: " ++ e1.upload.text) } ∧
      pyTruthy "Upload gagal!" = true) ∧
    ((transcribe_audio e2).1 =
        some { value := "Request transkrip gagal!",
               displayed := some ("Request transkrip gagal: " ++ e2.submit.text) } ∧
      pyTruthy "Request transkrip gagal!" = true) ∧
    ((transcribe_audio e3).1 =
        some { value := "Transkripsi gagal!",
               displayed := some ("Transkripsi gagal: " ++ p.error) } ∧
      pyTruthy "Transkripsi gagal!" = true) := by
  refine ⟨⟨?_, by decide⟩, ⟨?_, by decide⟩, ⟨?_, by decide⟩⟩
  · simp [transcribe_audio, h1]
  · simp [transcribe_audio, h2.1, h2.2]
  · simp [transcribe_audio, h3.1, h3.2.1, h3.2.2.1, pollTranscript, h3.2.2.2]

/-- Witness for C8 on three concrete environments exercising the upload
failure, the submission failure and the terminal `error` status. -/
theorem C8_failure_paths_truthy_strings_witness :
    ((transcribe_audio { upload := { statusCode := 500, text := "u", upload_url := "" },
                         submit := { statusCode := 200, text := "", id := "" },
                         polls := [] }).1 =
        some { value := "Upload gagal!", displayed := some ("Upload gagal: " ++ "u") } ∧
      pyTruthy "Upload gagal!" = true) ∧
    ((transcribe_audio { upload := { statusCode := 200, text := "", upload_url := "url" },
                         submit := { statusCode := 403, text := "s", id := "" },
                         polls := [] }).1 =
        some { value := "Request transkrip gagal!",
               displayed := some ("Request transkrip gagal: " ++ "s") } ∧
      pyTruthy "Request transkrip gagal!" = true) ∧
    ((transcribe_audio { upload := { statusCode := 200, text := "", upload_url := "url" },
                         submit := { statusCode := 200, text := "", id := "j1" },
                         polls := [{ status := "error", text := "", error := "bad audio" }] }).1 =
        some { value := "Transkripsi gagal!",
               displayed := some ("Transkripsi gagal: " ++ "bad audio") } ∧
      pyTruthy "Transkripsi gagal!" = true) :=
  C8_failure_paths_truthy_strings _ _ _
    { status := "error", text := "", error := "bad audio" } []
    (by decide) ⟨rfl, by decide⟩ ⟨rfl, rfl, rfl, rfl⟩

/-- C9: one iteration of the polling loop never consults the HTTP status code
(the outcome is the same for every pair of codes over the same body), a
non-JSON body raises, and a missing `status` / `text` / `error` key raises a
`KeyError` — an uncaught exception, not a returned error value. -/
theorem C9_poll_parse_unchecked :
    (∀ c c' b, pollStepRaw { statusCode := c, body := b } =
        pollStepRaw { statusCode := c', body := b }) ∧
    pollStepRaw { statusCode := 502, body := none } =
      PollStepOutcome.raise "JSONDecodeError" ∧
    pollStepRaw { statusCode := 200,
                  body := some { status := none, text := some "x", error := none } } =
      PollStepOutcome.raise "KeyError: status" ∧
    pollStepRaw { statusCode := 200,
                  body := some { status := some "completed", text := none, error := none } } =
      PollStepOutcome.raise "KeyError: text" ∧
    pollStepRaw { statusCode := 200,
                  body := some { status := some "error", text := none, error := none } } =
      PollStepOutcome.raise "KeyError: error" :=
  ⟨fun _ _ _ => rfl, rfl, rfl, rfl, rfl⟩

/-- C10: the encoder ignores the upload's original format (it always saves as
JPEG), and on an image whose mode is RGBA the JPEG save raises, so
`detect_food_from_image` propagates the uncaught exception instead of
returning text or a typed error. -/
theorem C10_always_jpeg_rgba_raises (img : PilImage) (resp : ChatHttpResp)
    (h : img.mode = ImageMode.RGBA) :
    (∀ m px f f', encode_image_to_base64 { mode := m, pixels := px, sourceFormat := f } =
        encode_image_to_base64 { mode := m, pixels := px, sourceFormat := f' }) ∧
    detect_food_from_image img resp = Except.error "cannot write mode RGBA as JPEG" := by
  refine ⟨fun m px f f' => rfl, ?_⟩
  obtain ⟨m, px, f⟩ := img
  have h' : m = ImageMode.RGBA := h
  subst h'
  rfl

/-- Witness for C10: a PNG upload opened with mode RGBA makes the whole
extraction raise. -/
theorem C10_always_jpeg_rgba_raises_witness :
    (∀ m px f f', encode_image_to_base64 { mode := m, pixels := px, sourceFormat := f } =
        encode_image_to_base64 { mode := m, pixels := px, sourceFormat := f' }) ∧
    detect_food_from_image { mode := ImageMode.RGBA, pixels := [1, 2, 3], sourceFormat := "PNG" }
        { statusCode := 200, content := "x", text := "" } =
      Except.error "cannot write mode RGBA as JPEG" :=
  C10_always_jpeg_rgba_raises _ { statusCode := 200, content := "x", text := "" } rfl

end NutritionCounter
